import Mathlib

/-!
# Formal model of the supply-chain tariff optimizer

A shallow embedding of the recommendation logic of `src/app.py`
(a single-file Streamlit dashboard).  The reference data
(`annex_tariffs`, `supply_strength_mapping`, `excluded_categories`)
are transcribed verbatim; the engine (`output_rows`, the
priority sort and the branch structure of the optimization run)
follows the Python code line by line.  Python's `dict.get` with a
default becomes an association-list lookup with `Option.getD`;
Python float arithmetic on savings amounts is modelled exactly over `ℚ`;
the Streamlit messages surfaced by the run branch are modelled by the
`RunOutput` inductive.
-/

namespace SupplyChain

/-- The three supply-strength tiers used in `supply_strength_mapping`. -/
inductive Strength where
  | High
  | Medium
  | Low
deriving DecidableEq

/-- The `annex_tariffs` dictionary of `app.py` (country → tariff %),
in insertion order. -/
def annex_tariffs : List (String × Nat) :=
  [("China", 34), ("Vietnam", 46), ("India", 26), ("Bangladesh", 37), ("Cambodia", 49),
   ("Malaysia", 24), ("Indonesia", 32), ("South Korea", 25), ("Mexico", 10), ("Taiwan", 32),
   ("Thailand", 36), ("European Union", 20), ("Canada", 0), ("Hong Kong", 34)]

/-- The `excluded_categories` list of `app.py`. -/
def excluded_categories : List String :=
  ["Food", "Medicine", "Humanitarian Goods", "Steel/Aluminum",
   "Autos/Auto Parts", "Semiconductors", "Lumber", "Pharmaceuticals",
   "Energy/Critical Minerals", "Precious Metals"]

/-- The `supply_strength_mapping` dictionary of `app.py`
((country, category) → tier). -/
def supply_strength_mapping : List ((String × String) × Strength) :=
  [(("China", "Apparel"), .High), (("Vietnam", "Apparel"), .High),
   (("Bangladesh", "Apparel"), .High), (("India", "Apparel"), .High),
   (("Cambodia", "Apparel"), .Medium), (("Indonesia", "Apparel"), .Medium),
   (("China", "Electronics"), .High), (("South Korea", "Electronics"), .High),
   (("Malaysia", "Electronics"), .High), (("Taiwan", "Electronics"), .High),
   (("Thailand", "Electronics"), .Medium), (("Indonesia", "Electronics"), .Medium),
   (("China", "Furniture"), .High), (("Vietnam", "Furniture"), .High),
   (("Malaysia", "Furniture"), .Medium), (("Indonesia", "Furniture"), .Medium),
   (("China", "Steel/Aluminum"), .High), (("South Korea", "Steel/Aluminum"), .High),
   (("India", "Steel/Aluminum"), .Medium),
   (("China", "Chemicals"), .High), (("India", "Chemicals"), .High),
   (("Malaysia", "Chemicals"), .Medium),
   (("Mexico", "Automotive Parts"), .High), (("China", "Automotive Parts"), .High),
   (("South Korea", "Automotive Parts"), .High), (("Thailand", "Automotive Parts"), .Medium),
   (("Taiwan", "Semiconductors"), .High), (("South Korea", "Semiconductors"), .High),
   (("Malaysia", "Semiconductors"), .Medium), (("Singapore", "Semiconductors"), .Medium)]

/-- Association-list lookup: the semantics of a Python `dict` lookup over
the key/value pairs in insertion order (keys are unique in all the tables
above, so first match and last-write-wins coincide). -/
def dict_find {α β : Type} [DecidableEq α] : List (α × β) → α → Option β
  | [], _ => none
  | kv :: rest, a => if a = kv.1 then some kv.2 else dict_find rest a

/-- Function `get_tariff` generalized over the tariff table it reads
(`app.py` always passes the global `annex_tariffs`):
`annex_tariffs.get(country, 10)`. -/
def get_tariff_in (table : List (String × Nat)) (country : String) : Nat :=
  (dict_find table country).getD 10

/-- Function `get_tariff(country)` of `app.py`: the configured rate or the default 10. -/
def get_tariff (country : String) : Nat :=
  get_tariff_in annex_tariffs country

/-- Function `get_supply_strength` generalized over the strength table it reads:
`supply_strength_mapping.get((country, category), 'Low')`. -/
def get_supply_strength_in (table : List ((String × String) × Strength))
    (country category : String) : Strength :=
  (dict_find table (country, category)).getD .Low

/-- Function `get_supply_strength(country, category)` of `app.py`. -/
def get_supply_strength (country category : String) : Strength :=
  get_supply_strength_in supply_strength_mapping country category

/-- One entry of `output_rows` in `app.py` (a `RecommendationRow`):
the dict appended at lines 150–157.  `saving_pct` is an integer
(difference of two integer tariffs, so Python's `round(x, 1)` is the
identity on it); `savings_amount` is the exact value of
`(savings_percentage / 100) * import_value`. -/
structure Row where
  alt_country : String
  new_tariff : Nat
  saving_pct : Int
  savings_amount : ℚ
  strength : Strength
  tariff_status : String
deriving DecidableEq

/-- One iteration of the `for alt_country in annex_tariffs.keys()` loop
(lines 137–157 of `app.py`): `none` when the row is skipped by
`alt_country == country or savings_percentage <= 0`, otherwise the row. -/
def make_row (tariffs : List (String × Nat)) (strengths : List ((String × String) × Strength))
    (clean_cat current : String) (import_val : Nat) (alt : String) : Option Row :=
  let alt_tariff := get_tariff_in tariffs alt
  let savings_percentage : Int := (get_tariff_in tariffs current : Int) - (alt_tariff : Int)
  if alt = current ∨ savings_percentage ≤ 0 then
    none
  else
    some
      { alt_country := alt
        new_tariff := alt_tariff
        saving_pct := savings_percentage
        savings_amount := ((savings_percentage : ℚ) / 100) * (import_val : ℚ)
        strength := get_supply_strength_in strengths alt clean_cat
        tariff_status :=
          if clean_cat ∈ excluded_categories ∨ (alt = "Canada" ∧ alt_tariff = 0) then
            "✅ Excluded"
          else
            "❗ Subject to Tariffs" }

/-- The `output_rows` list built by the loop at lines 136–157 of `app.py`,
generalized over the two reference tables it reads. -/
def output_rows (tariffs : List (String × Nat)) (strengths : List ((String × String) × Strength))
    (clean_cat current : String) (import_val : Nat) : List Row :=
  (tariffs.map Prod.fst).filterMap (make_row tariffs strengths clean_cat current import_val)

/-- The `strength_priority` rank table of `app.py` line 161. -/
def strength_priority : Strength → Nat
  | .High => 1
  | .Medium => 2
  | .Low => 3

/-- The composite sort key of `result_df.sort_values(by=['Priority', 'Saving %'],
ascending=[True, False])`: primary ascending priority, secondary descending
saving percentage. -/
def RowLE (a b : Row) : Prop :=
  strength_priority a.strength < strength_priority b.strength ∨
    (strength_priority a.strength = strength_priority b.strength ∧ b.saving_pct ≤ a.saving_pct)

instance : DecidableRel RowLE := fun a b =>
  inferInstanceAs (Decidable
    (strength_priority a.strength < strength_priority b.strength ∨
      (strength_priority a.strength = strength_priority b.strength ∧
        b.saving_pct ≤ a.saving_pct)))

instance : IsTotal Row RowLE := by
  constructor
  intro a b
  rcases lt_trichotomy (strength_priority a.strength) (strength_priority b.strength) with h | h | h
  · exact Or.inl (Or.inl h)
  · rcases le_total b.saving_pct a.saving_pct with h2 | h2
    · exact Or.inl (Or.inr ⟨h, h2⟩)
    · exact Or.inr (Or.inr ⟨h.symm, h2⟩)
  · exact Or.inr (Or.inl h)

instance : IsTrans Row RowLE := by
  constructor
  intro a b c hab hbc
  rcases hab with hab | ⟨hab, hab2⟩ <;> rcases hbc with hbc | ⟨hbc, hbc2⟩
  · exact Or.inl (hab.trans hbc)
  · exact Or.inl (hbc ▸ hab)
  · exact Or.inl (hab ▸ hbc)
  · exact Or.inr ⟨hab.trans hbc, hbc2.trans hab2⟩

/-- The sort of line 163 of `app.py`: stable sort of the rows by the
composite key (priority ascending, saving descending). -/
def sort_rows (rows : List Row) : List Row :=
  List.insertionSort RowLE rows

/-- The inputs stored in `st.session_state.opt_inputs` when the
optimization button is pressed (lines 108–116 of `app.py`). -/
structure Inputs where
  category : String
  subcategory : Option String
  country : String
  annual_import_value : Nat
  individual_shipment_value : Nat
deriving DecidableEq

/-- The characters of a string before its first occurrence of the two-character
separator `" ("` (the whole string when the separator does not occur). -/
def chars_before_paren : List Char → List Char
  | [] => []
  | ' ' :: '(' :: _ => []
  | c :: rest => c :: chars_before_paren rest

/-- Expression `inputs["category"].split(' (')[0]` of `app.py` line 122: the part of the
category name before a parenthesized suffix. -/
def clean_category (cat : String) : String :=
  ⟨chars_before_paren cat.data⟩

/-- What the optimization branch of `app.py` (lines 119–186) surfaces:
either the excluded-category advisory (lines 128–134), the ranked
recommendation table with its chart/export/top-pick views (lines 159–184),
or the "No better alternative countries found." warning (line 186). -/
inductive RunOutput where
  | excludedAdvisory (category : String)
  | ranking (rows : List Row)
  | noAlternative
deriving DecidableEq

/-- The optimization run of `app.py` lines 119–186 as a function of the
submitted inputs.  It reads only the constant reference tables and the
inputs; the `subcategory` and `individual_shipment_value` fields are stored
in `opt_inputs` but never read by this branch, exactly as in the code. -/
def runOptimization (i : Inputs) : RunOutput :=
  if clean_category i.category ∈ excluded_categories then
    .excludedAdvisory (clean_category i.category)
  else if output_rows annex_tariffs supply_strength_mapping (clean_category i.category)
      i.country i.annual_import_value = [] then
    .noAlternative
  else
    .ranking (sort_rows (output_rows annex_tariffs supply_strength_mapping
      (clean_category i.category) i.country i.annual_import_value))

/-- The restricted tariff table of the C1 scenario. -/
def scenario_tariffs : List (String × Nat) :=
  [("China", 34), ("Vietnam", 46), ("India", 26), ("Mexico", 10), ("Canada", 0)]

/-- The restricted supply-strength table of the C1 scenario:
(India, Apparel) = High, everything else defaults to Low. -/
def scenario_strengths : List ((String × String) × Strength) :=
  [(("India", "Apparel"), .High)]

/-- C1: with the tariff table China 34, Vietnam 46, India 26, Mexico 10, Canada 0,
category Apparel, current country China, annual value 100000, the engine
emits exactly the rows India (8%, 8000), Mexico (24%, 24000),
Canada (34%, 34000) — Vietnam excluded — and with (India, Apparel) = High
and all other pairs Low the ranked order is India, Canada, Mexico. -/
theorem c1_concrete_scenario :
    output_rows scenario_tariffs scenario_strengths "Apparel" "China" 100000 =
      [⟨"India", 26, 8, 8000, .High, "❗ Subject to Tariffs"⟩,
       ⟨"Mexico", 10, 24, 24000, .Low, "❗ Subject to Tariffs"⟩,
       ⟨"Canada", 0, 34, 34000, .Low, "✅ Excluded"⟩] ∧
    sort_rows (output_rows scenario_tariffs scenario_strengths "Apparel" "China" 100000) =
      [⟨"India", 26, 8, 8000, .High, "❗ Subject to Tariffs"⟩,
       ⟨"Canada", 0, 34, 34000, .Low, "✅ Excluded"⟩,
       ⟨"Mexico", 10, 24, 24000, .Low, "❗ Subject to Tariffs"⟩] :=
  ⟨by
    simp [output_rows, make_row, get_tariff_in, get_supply_strength_in,
      scenario_tariffs, scenario_strengths, excluded_categories, dict_find,
      strength_priority]
    norm_num,
   by
    simp [output_rows, make_row, get_tariff_in, get_supply_strength_in,
      scenario_tariffs, scenario_strengths, excluded_categories, dict_find,
      sort_rows, List.insertionSort, List.orderedInsert, strength_priority,
      RowLE]
    norm_num⟩

/-- Inversion of one loop iteration: what holds of a row that `make_row` emits. -/
theorem make_row_eq_some {tariffs : List (String × Nat)}
    {strengths : List ((String × String) × Strength)} {clean_cat current alt : String}
    {import_val : Nat} {r : Row}
    (h : make_row tariffs strengths clean_cat current import_val alt = some r) :
    alt ≠ current ∧
      0 < (get_tariff_in tariffs current : Int) - (get_tariff_in tariffs alt : Int) ∧
      r = { alt_country := alt
            new_tariff := get_tariff_in tariffs alt
            saving_pct := (get_tariff_in tariffs current : Int) - (get_tariff_in tariffs alt : Int)
            savings_amount :=
              ((((get_tariff_in tariffs current : Int) -
                  (get_tariff_in tariffs alt : Int) : Int) : ℚ) / 100) * (import_val : ℚ)
            strength := get_supply_strength_in strengths alt clean_cat
            tariff_status :=
              if clean_cat ∈ excluded_categories ∨
                  (alt = "Canada" ∧ get_tariff_in tariffs alt = 0) then
                "✅ Excluded"
              else
                "❗ Subject to Tariffs" } := by
  simp only [make_row] at h
  split at h
  · exact Option.noConfusion h
  · rename_i hcond
    push_neg at hcond
    injection h with h
    exact ⟨hcond.1, hcond.2, h.symm⟩

/-- Membership in the emitted rows comes from some loop iteration. -/
theorem mem_output_rows {tariffs : List (String × Nat)}
    {strengths : List ((String × String) × Strength)} {clean_cat current : String}
    {import_val : Nat} {r : Row} :
    r ∈ output_rows tariffs strengths clean_cat current import_val ↔
      ∃ alt ∈ tariffs.map Prod.fst,
        make_row tariffs strengths clean_cat current import_val alt = some r := by
  simp [output_rows, List.mem_filterMap]

/-- Sorting permutes the rows, so membership is unchanged. -/
theorem mem_sort_rows {r : Row} {rows : List Row} : r ∈ sort_rows rows ↔ r ∈ rows :=
  (List.perm_insertionSort RowLE rows).mem_iff

/-- Inversion of the run branch: a ranking is emitted only for a category whose
cleaned name is not excluded, from a non-empty row list, sorted. -/
theorem runOptimization_eq_ranking {i : Inputs} {rows : List Row}
    (h : runOptimization i = .ranking rows) :
    clean_category i.category ∉ excluded_categories ∧
      output_rows annex_tariffs supply_strength_mapping (clean_category i.category)
        i.country i.annual_import_value ≠ [] ∧
      rows = sort_rows (output_rows annex_tariffs supply_strength_mapping
        (clean_category i.category) i.country i.annual_import_value) := by
  unfold runOptimization at h
  split at h
  · exact RunOutput.noConfusion h
  · rename_i h1
    split at h
    · exact RunOutput.noConfusion h
    · rename_i h2
      injection h with h
      exact ⟨h1, h2, h.symm⟩

/-- The unsorted rows of the full-table query (Apparel, China, 100000),
in `annex_tariffs` order. -/
theorem apparel_china_output_eval :
    output_rows annex_tariffs supply_strength_mapping "Apparel" "China" 100000 =
      [⟨"India", 26, 8, 8000, .High, "❗ Subject to Tariffs"⟩,
       ⟨"Malaysia", 24, 10, 10000, .Low, "❗ Subject to Tariffs"⟩,
       ⟨"Indonesia", 32, 2, 2000, .Medium, "❗ Subject to Tariffs"⟩,
       ⟨"South Korea", 25, 9, 9000, .Low, "❗ Subject to Tariffs"⟩,
       ⟨"Mexico", 10, 24, 24000, .Low, "❗ Subject to Tariffs"⟩,
       ⟨"Taiwan", 32, 2, 2000, .Low, "❗ Subject to Tariffs"⟩,
       ⟨"European Union", 20, 14, 14000, .Low, "❗ Subject to Tariffs"⟩,
       ⟨"Canada", 0, 34, 34000, .Low, "✅ Excluded"⟩] := by
  simp [output_rows, make_row, get_tariff_in, get_supply_strength_in,
    annex_tariffs, supply_strength_mapping, excluded_categories, dict_find,
    strength_priority]
  norm_num

/-- The ranked rows of the full-table query (Apparel, China, 100000). -/
def apparel_china_sorted : List Row :=
  [⟨"India", 26, 8, 8000, .High, "❗ Subject to Tariffs"⟩,
   ⟨"Indonesia", 32, 2, 2000, .Medium, "❗ Subject to Tariffs"⟩,
   ⟨"Canada", 0, 34, 34000, .Low, "✅ Excluded"⟩,
   ⟨"Mexico", 10, 24, 24000, .Low, "❗ Subject to Tariffs"⟩,
   ⟨"European Union", 20, 14, 14000, .Low, "❗ Subject to Tariffs"⟩,
   ⟨"Malaysia", 24, 10, 10000, .Low, "❗ Subject to Tariffs"⟩,
   ⟨"South Korea", 25, 9, 9000, .Low, "❗ Subject to Tariffs"⟩,
   ⟨"Taiwan", 32, 2, 2000, .Low, "❗ Subject to Tariffs"⟩]

set_option maxRecDepth 16000 in
theorem apparel_china_sorted_eval :
    sort_rows (output_rows annex_tariffs supply_strength_mapping "Apparel" "China" 100000) =
      apparel_china_sorted := by
  rw [apparel_china_output_eval]
  exact rfl

theorem clean_category_apparel : clean_category "Apparel" = "Apparel" := by decide

/-- The full run on (Apparel, China, 100000) surfaces the ranked table. -/
theorem apparel_china_run_eval :
    runOptimization ⟨"Apparel", some "Synthetic", "China", 100000, 0⟩ =
      .ranking apparel_china_sorted := by
  have hne : output_rows annex_tariffs supply_strength_mapping "Apparel" "China" 100000 ≠ [] := by
    rw [apparel_china_output_eval]
    simp
  simp [runOptimization, clean_category_apparel, excluded_categories, hne,
    apparel_china_sorted_eval]

/-- C2: whenever the run emits a ranking, adjacent rows a, b satisfy
tier_rank(a) <= tier_rank(b), and when the tier ranks are equal,
a.saving_pct >= b.saving_pct (primary ascending priority, secondary
descending saving). -/
theorem c2_output_sorted (i : Inputs) (rows : List Row)
    (h : runOptimization i = .ranking rows) :
    rows.Chain' (fun a b =>
      strength_priority a.strength ≤ strength_priority b.strength ∧
        (strength_priority a.strength = strength_priority b.strength →
          b.saving_pct ≤ a.saving_pct)) := by
  obtain ⟨-, -, hrows⟩ := runOptimization_eq_ranking h
  subst hrows
  have hs : List.Sorted RowLE (sort_rows (output_rows annex_tariffs supply_strength_mapping
      (clean_category i.category) i.country i.annual_import_value)) :=
    List.sorted_insertionSort RowLE _
  refine List.Chain'.imp ?_ (List.Pairwise.chain' hs)
  intro a b hab
  rcases hab with hab | ⟨hab, hab2⟩
  · exact ⟨le_of_lt hab, fun he => absurd he (ne_of_lt hab)⟩
  · exact ⟨le_of_eq hab, fun _ => hab2⟩

/-- C2 witness: the run on (Apparel, China, 100000) emits a ranking, and
that concrete ranking is sorted by the composite key. -/
theorem c2_output_sorted_witness :
    List.Chain' (fun a b =>
      strength_priority a.strength ≤ strength_priority b.strength ∧
        (strength_priority a.strength = strength_priority b.strength →
          b.saving_pct ≤ a.saving_pct)) apparel_china_sorted :=
  c2_output_sorted ⟨"Apparel", some "Synthetic", "China", 100000, 0⟩ apparel_china_sorted
    apparel_china_run_eval

/-- The per-country emit/skip decision and the emitted country name do not
depend on the import value (only the savings amount does). -/
theorem filterMap_make_row_map_country (tariffs : List (String × Nat))
    (strengths : List ((String × String) × Strength)) (cat c : String) (v : Nat)
    (l : List String) :
    (l.filterMap (make_row tariffs strengths cat c v)).map Row.alt_country =
      (l.filterMap (make_row tariffs strengths cat c 0)).map Row.alt_country := by
  induction l with
  | nil => rfl
  | cons a l ih =>
    simp only [List.filterMap_cons]
    by_cases h : a = c ∨ get_tariff_in tariffs c ≤ get_tariff_in tariffs a
    · simpa [make_row, h] using ih
    · simpa [make_row, h] using ih

/-- C3: every emitted row has a strictly positive saving percentage, and
inclusion is decided purely by that percentage: with import value 0 the
same countries are emitted, every savings amount then being 0. -/
theorem c3_strict_positive_filter (cat c : String) (v : Nat) :
    (∀ r ∈ output_rows annex_tariffs supply_strength_mapping cat c v, 0 < r.saving_pct) ∧
      (output_rows annex_tariffs supply_strength_mapping cat c v).map Row.alt_country =
        (output_rows annex_tariffs supply_strength_mapping cat c 0).map Row.alt_country ∧
      ∀ r ∈ output_rows annex_tariffs supply_strength_mapping cat c 0,
        r.savings_amount = 0 := by
  refine ⟨?_, ?_, ?_⟩
  · intro r hr
    obtain ⟨alt, -, hmk⟩ := mem_output_rows.mp hr
    obtain ⟨-, hpos, hr⟩ := make_row_eq_some hmk
    rw [hr]
    exact hpos
  · exact filterMap_make_row_map_country annex_tariffs supply_strength_mapping cat c v _
  · intro r hr
    obtain ⟨alt, -, hmk⟩ := mem_output_rows.mp hr
    obtain ⟨-, -, hr⟩ := make_row_eq_some hmk
    rw [hr]
    simp

/-- The unsorted rows of the query (Apparel, China) with import value 0:
the same countries as with 100000, every amount 0. -/
theorem apparel_china_zero_eval :
    output_rows annex_tariffs supply_strength_mapping "Apparel" "China" 0 =
      [⟨"India", 26, 8, 0, .High, "❗ Subject to Tariffs"⟩,
       ⟨"Malaysia", 24, 10, 0, .Low, "❗ Subject to Tariffs"⟩,
       ⟨"Indonesia", 32, 2, 0, .Medium, "❗ Subject to Tariffs"⟩,
       ⟨"South Korea", 25, 9, 0, .Low, "❗ Subject to Tariffs"⟩,
       ⟨"Mexico", 10, 24, 0, .Low, "❗ Subject to Tariffs"⟩,
       ⟨"Taiwan", 32, 2, 0, .Low, "❗ Subject to Tariffs"⟩,
       ⟨"European Union", 20, 14, 0, .Low, "❗ Subject to Tariffs"⟩,
       ⟨"Canada", 0, 34, 0, .Low, "✅ Excluded"⟩] := by
  simp [output_rows, make_row, get_tariff_in, get_supply_strength_in,
    annex_tariffs, supply_strength_mapping, excluded_categories, dict_find,
    strength_priority]

/-- C3 witness: the India row of the (Apparel, China, 100000) query has a
positive saving percentage, and the India row of the value-0 query has
savings amount 0. -/
theorem c3_strict_positive_filter_witness :
    0 < (⟨"India", 26, 8, 8000, Strength.High, "❗ Subject to Tariffs"⟩ : Row).saving_pct ∧
      (⟨"India", 26, 8, 0, Strength.High, "❗ Subject to Tariffs"⟩ : Row).savings_amount = 0 :=
  ⟨(c3_strict_positive_filter "Apparel" "China" 100000).1 _
      (by rw [apparel_china_output_eval]; exact List.mem_cons_self _ _),
   (c3_strict_positive_filter "Apparel" "China" 100000).2.2 _
      (by rw [apparel_china_zero_eval]; exact List.mem_cons_self _ _)⟩

/-- C5: the engine never emits the current country as its own alternative. -/
theorem c5_no_self_row (cat c : String) (v : Nat) :
    ∀ r ∈ output_rows annex_tariffs supply_strength_mapping cat c v,
      r.alt_country ≠ c := by
  intro r hr
  obtain ⟨alt, -, hmk⟩ := mem_output_rows.mp hr
  obtain ⟨hne, -, hr⟩ := make_row_eq_some hmk
  rw [hr]
  exact hne

/-- The rows for a current country absent from the tariff table
("Atlantis", defaulted to tariff 10): exactly the Canada row. -/
theorem atlantis_output_eval :
    output_rows annex_tariffs supply_strength_mapping "Apparel" "Atlantis" 100000 =
      [⟨"Canada", 0, 10, 10000, .Low, "✅ Excluded"⟩] := by
  simp [output_rows, make_row, get_tariff_in, get_supply_strength_in,
    annex_tariffs, supply_strength_mapping, excluded_categories, dict_find,
    strength_priority]
  norm_num

/-- C5 witness: for the unlisted current country "Atlantis" (tariff
defaulted to 10) the emitted Canada row is not "Atlantis" itself. -/
theorem c5_no_self_row_witness :
    (⟨"Canada", 0, 10, 10000, Strength.Low, "✅ Excluded"⟩ : Row).alt_country ≠ "Atlantis" :=
  c5_no_self_row "Apparel" "Atlantis" 100000 _
    (by rw [atlantis_output_eval]; exact List.mem_cons_self _ _)

/-- An association-list lookup of a key that heads no pair misses. -/
theorem dict_find_eq_none {α β : Type} [DecidableEq α] {l : List (α × β)} {a : α}
    (h : a ∉ l.map Prod.fst) : dict_find l a = none := by
  induction l with
  | nil => rfl
  | cons kv rest ih =>
    simp only [List.map_cons, List.mem_cons] at h
    push_neg at h
    simp only [dict_find, if_neg h.1]
    exact ih h.2

/-- C6: the reference lookups are total and silently defaulting: an unknown
country resolves to tariff 10 and an unknown (country, category) pair
resolves to tier Low. -/
theorem c6_total_defaulting_lookups :
    (∀ c, c ∉ annex_tariffs.map Prod.fst → get_tariff c = 10) ∧
      ∀ c cat, (c, cat) ∉ supply_strength_mapping.map Prod.fst →
        get_supply_strength c cat = Strength.Low := by
  constructor
  · intro c h
    unfold get_tariff get_tariff_in
    rw [dict_find_eq_none h]
    rfl
  · intro c cat h
    unfold get_supply_strength get_supply_strength_in
    rw [dict_find_eq_none h]
    rfl

/-- C6 witness: "Atlantis" is in neither table; its tariff is 10 and its
(Atlantis, Apparel) tier is Low. -/
theorem c6_total_defaulting_lookups_witness :
    get_tariff "Atlantis" = 10 ∧ get_supply_strength "Atlantis" "Apparel" = Strength.Low :=
  ⟨c6_total_defaulting_lookups.1 "Atlantis" (by decide),
   c6_total_defaulting_lookups.2 "Atlantis" "Apparel" (by decide)⟩

/-- The run short-circuits to the excluded-category advisory whenever the
cleaned category is in the excluded list (lines 127–134 of `app.py`). -/
theorem runOptimization_excluded {i : Inputs}
    (h : clean_category i.category ∈ excluded_categories) :
    runOptimization i = .excludedAdvisory (clean_category i.category) := by
  unfold runOptimization
  rw [if_pos h]

/-- C7: for every category in the excluded list, a submitted run surfaces the
advisory message and no ranking, regardless of country and import value. -/
theorem c7_excluded_category_advisory (cat : String) (h : cat ∈ excluded_categories)
    (sub : Option String) (c : String) (v sv : Nat) :
    runOptimization ⟨cat, sub, c, v, sv⟩ = .excludedAdvisory cat := by
  have hcc : clean_category cat = cat := by
    simp only [excluded_categories, List.mem_cons, List.not_mem_nil, or_false] at h
    rcases h with rfl | rfl | rfl | rfl | rfl | rfl | rfl | rfl | rfl | rfl <;> decide
  have hrun := runOptimization_excluded (i := ⟨cat, sub, c, v, sv⟩) (by simpa [hcc] using h)
  simpa [hcc] using hrun

/-- C7 witness: submitting the excluded category Food yields the advisory. -/
theorem c7_excluded_category_advisory_witness :
    runOptimization ⟨"Food", none, "China", 100000, 0⟩ = .excludedAdvisory "Food" :=
  c7_excluded_category_advisory "Food" (by decide) none "China" 100000 0

/-- C8: when no alternative country has a strictly positive saving, the
engine emits the empty row list and the run surfaces the distinct
"No better alternative countries found." warning — a terminal outcome of
the total function `runOptimization`, not a failure. -/
theorem c8_no_viable_alternative (i : Inputs)
    (hex : clean_category i.category ∉ excluded_categories)
    (h : ∀ alt ∈ annex_tariffs.map Prod.fst,
      (get_tariff i.country : Int) - (get_tariff alt : Int) ≤ 0) :
    output_rows annex_tariffs supply_strength_mapping (clean_category i.category)
        i.country i.annual_import_value = [] ∧
      runOptimization i = .noAlternative := by
  have hrows : output_rows annex_tariffs supply_strength_mapping (clean_category i.category)
      i.country i.annual_import_value = [] := by
    unfold output_rows
    refine List.filterMap_eq_nil_iff.mpr ?_
    intro a ha
    have hle := h a ha
    simp only [get_tariff] at hle
    simp only [make_row]
    rw [if_pos (Or.inr hle)]
  refine ⟨hrows, ?_⟩
  unfold runOptimization
  rw [if_neg hex, if_pos hrows]

/-- C8 witness: from Canada (tariff 0) no alternative has positive savings;
the run on (Apparel, Canada, 100000) warns and ranks nothing. -/
theorem c8_no_viable_alternative_witness :
    output_rows annex_tariffs supply_strength_mapping
        (clean_category "Apparel") "Canada" 100000 = [] ∧
      runOptimization ⟨"Apparel", none, "Canada", 100000, 0⟩ = .noAlternative :=
  c8_no_viable_alternative ⟨"Apparel", none, "Canada", 100000, 0⟩ (by decide) (by decide)

/-- C9: the run is deterministic and stateless — it is a pure function of
the submitted inputs (it reads only the constant reference tables), so two
runs on equal inputs produce identical output. -/
theorem c9_deterministic (i j : Inputs) (h : i = j) :
    runOptimization i = runOptimization j := by
  rw [h]

/-- C9 witness: two runs on the same concrete inputs coincide. -/
theorem c9_deterministic_witness :
    runOptimization ⟨"Apparel", some "Synthetic", "China", 100000, 0⟩ =
      runOptimization ⟨"Apparel", some "Synthetic", "China", 100000, 0⟩ :=
  c9_deterministic ⟨"Apparel", some "Synthetic", "China", 100000, 0⟩
    ⟨"Apparel", some "Synthetic", "China", 100000, 0⟩ rfl

/-- C10: in every row the ranking branch actually emits, the tariff-status
label is "✅ Excluded" exactly when the alternative country is Canada with
tariff 0, and "❗ Subject to Tariffs" otherwise: the excluded-category
disjunct of the label rule at line 145 of `app.py` is unreachable, because
the ranking branch only runs for categories outside the excluded list. -/
theorem c10_status_label (i : Inputs) (rows : List Row)
    (h : runOptimization i = .ranking rows) :
    ∀ r ∈ rows,
      r.tariff_status =
        if r.alt_country = "Canada" ∧ r.new_tariff = 0 then "✅ Excluded"
        else "❗ Subject to Tariffs" := by
  obtain ⟨hex, -, hrows⟩ := runOptimization_eq_ranking h
  subst hrows
  intro r hr
  rw [mem_sort_rows] at hr
  obtain ⟨alt, -, hmk⟩ := mem_output_rows.mp hr
  obtain ⟨-, -, hr⟩ := make_row_eq_some hmk
  subst hr
  simp [hex]

/-- C10 witness: in the concrete (Apparel, China, 100000) ranking the Canada
row (tariff 0) is the one labeled "✅ Excluded". -/
theorem c10_status_label_witness :
    (⟨"Canada", 0, 34, 34000, Strength.Low, "✅ Excluded"⟩ : Row).tariff_status =
      if ("Canada" = "Canada" ∧ (0 : Nat) = 0) then "✅ Excluded"
      else "❗ Subject to Tariffs" :=
  c10_status_label ⟨"Apparel", some "Synthetic", "China", 100000, 0⟩ apparel_china_sorted
    apparel_china_run_eval ⟨"Canada", 0, 34, 34000, Strength.Low, "✅ Excluded"⟩
    (by simp [apparel_china_sorted])

/-- C4 counterexample: with the current country China (a low-cost hub) and a
shipment value of 500 — below the 800 threshold — the run output is exactly
the ordinary ranking and is identical to the output with a shipment value
far above the threshold: no distinct small-shipment advisory is surfaced
anywhere in the code. -/
theorem c4_counterexample :
    runOptimization ⟨"Apparel", some "Synthetic", "China", 100000, 500⟩ =
        runOptimization ⟨"Apparel", some "Synthetic", "China", 100000, 100000⟩ ∧
      runOptimization ⟨"Apparel", some "Synthetic", "China", 100000, 500⟩ =
        .ranking apparel_china_sorted := by
  constructor
  · rfl
  · have hne : output_rows annex_tariffs supply_strength_mapping
        "Apparel" "China" 100000 ≠ [] := by
      rw [apparel_china_output_eval]
      simp
    simp [runOptimization, clean_category_apparel, excluded_categories, hne,
      apparel_china_sorted_eval]

/-- C4 (amended): the individual shipment value is stored with the submitted
inputs (line 114 of `app.py`) but never read afterwards: the run output is
identical for every shipment value, so no small-shipment advisory exists. -/
theorem c4_shipment_value_never_read (cat : String) (sub : Option String) (c : String)
    (v s s' : Nat) :
    runOptimization ⟨cat, sub, c, v, s⟩ = runOptimization ⟨cat, sub, c, v, s'⟩ := rfl

end SupplyChain
